import Mathlib

/-!
Verification development for the chatagentcore repository.

Shallow embedding of the core components the specification describes:
the canonical message produced by the platform adapters
(`chatagentcore/adapters/feishu/__init__.py`,
`chatagentcore/adapters/dingtalk/__init__.py`,
`chatagentcore/adapters/qq/client.py`), the configuration manager
(`chatagentcore/core/config_manager.py` with the pydantic validators of
`chatagentcore/api/schemas/config.py`), the message router
(`chatagentcore/core/router.py`), and the WebSocket event-distribution hub
(`chatagentcore/api/websocket/manager.py` together with the
`/ws/events` endpoint loop of `chatagentcore/api/main.py`).

Python dicts are modelled as association lists (insertion ordered, one
entry per key, exactly dict semantics), Python sets of websockets as
duplicate-free lists, truthiness of strings as comparison with `""`,
exceptions as `Except`, and the success or failure of a network send to
one websocket by an environment function `ok : Nat → Bool` (websockets
themselves are modelled by their identity, a `Nat`).
-/

/-- Association-list lookup: the model of `d.get(k)` / `k in d` on a Python
dict represented as a `List (key × value)`. -/
def alookup {α β : Type} [DecidableEq α] : List (α × β) → α → Option β
  | [], _ => none
  | (k, v) :: rest, a => if k = a then some v else alookup rest a

/-- Model of Python `a or b` on strings: `""` is falsy. -/
def strOr (a b : String) : String := if a = "" then b else a

/-- Model of Python `a or b` on integers: `0` is falsy. -/
def intOr (a b : Int) : Int := if a = 0 then b else a

/-- Whether an `Except` computation succeeded (returned rather than raised). -/
def exOk {ε α : Type} : Except ε α → Bool
  | .ok _ => true
  | .error _ => false

/-! ## Canonical Message (chatagentcore/api/models/message.py, adapters/base) -/

/-- Sender block of the canonical message (`sender {id, name, type}`). -/
structure SenderInfo where
  id : String
  name : String
  type : String
deriving Repr, DecidableEq

/-- Conversation block of the canonical message (`conversation {id, type}`). -/
structure ConversationInfo where
  id : String
  type : String
deriving Repr, DecidableEq

/-- Content block of the canonical message (`content {type, text, data}`);
the open `data` bag is modelled as an association list of strings. -/
structure MessageContent where
  type : String
  text : String
  data : List (String × String)
deriving Repr, DecidableEq

/-- Canonical message every adapter produces. -/
structure Message where
  platform : String
  message_id : String
  sender : SenderInfo
  conversation : ConversationInfo
  content : MessageContent
  timestamp : Int
deriving Repr, DecidableEq

/-! ## Feishu adapter: `FeishuAdapter._parse_message_from_event`
(src/chatagentcore/adapters/feishu/__init__.py, lines 236-350).

The envelope unwrapping that chooses `event.message`, `event.data.message`
or `event` itself as the message object, and likewise `event.sender` vs
`event.data.sender`, is wire-format plumbing (spec §1 puts field extraction
from proprietary payloads out of scope); the model takes the resolved
message object and sender. JSON decoding of the `content` string is
likewise taken as already done: `content = some d` means the field was
present and decoded to the dict `d` (a string that is not valid JSON
decodes to `{"text": raw}` per the code), `none` means absent/empty. -/

/-- The `sender.sender_id` sub-object of a Feishu event. -/
structure FeishuSenderId where
  open_id : String
deriving Repr, DecidableEq

/-- The resolved `sender` object of a Feishu event; `none` fields model
absent dict keys. -/
structure FeishuSenderRaw where
  sender_id : Option FeishuSenderId
  open_id : Option String
  sender_type : Option String
  user_id : Option String
deriving Repr, DecidableEq

/-- The resolved message object of a Feishu event. -/
structure FeishuMessageObj where
  message_id : Option String
  chat_id : Option String
  message_type : Option String
  msg_type : Option String
  content : Option (List (String × String))
  chat_type : Option String
  create_time : Option Int
deriving Repr, DecidableEq

/-- A Feishu event after envelope resolution. -/
structure FeishuEvent where
  header_create_time : Option Int
  message_obj : FeishuMessageObj
  sender : Option FeishuSenderRaw
deriving Repr, DecidableEq

/-- Sender-id extraction of `_parse_message_from_event`: `sender_id.open_id`
if the `sender_id` key is present, else `open_id`, else (when `sender_type`
is present) `str(user_id) or str(open_id)`, else `""`. -/
def feishuSenderIdOf (s : FeishuSenderRaw) : String :=
  match s.sender_id with
  | some sid => sid.open_id
  | none =>
    match s.open_id with
    | some oid => oid
    | none =>
      if s.sender_type.isSome then strOr (s.user_id.getD "") (s.open_id.getD "")
      else ""

/-- Model of `FeishuAdapter._parse_message_from_event`. -/
def feishuParse (e : FeishuEvent) : Message :=
  let m := e.message_obj
  let message_id := m.message_id.getD ""
  let chat_id := m.chat_id.getD ""
  let message_type := strOr (m.message_type.getD "") (m.msg_type.getD "")
  let sender := e.sender.getD ⟨none, none, none, none⟩
  let sender_id := feishuSenderIdOf sender
  let sender_type := sender.sender_type.getD "user"
  let content_data : List (String × String) :=
    match m.content with
    | some d => d
    | none => [("text", "")]
  let text_content :=
    if message_type = "text" then
      (if content_data ≠ [] then (alookup content_data "text").getD "" else "")
    else if message_type = "interactive" then "[卡片消息]"
    else if message_type = "post" then "[富文本消息]"
    else "[" ++ message_type ++ " 消息]"
  let chat_type :=
    strOr (m.chat_type.getD "user")
      (if chat_id ≠ "" ∧ chat_id.startsWith "oc_" then "group" else "user")
  let final_conv_id := if chat_type = "user" then sender_id else chat_id
  { platform := "feishu"
    message_id := message_id
    sender := ⟨sender_id, sender_type, sender_type⟩
    conversation := ⟨final_conv_id, chat_type⟩
    content := ⟨message_type, text_content, content_data⟩
    timestamp := intOr (m.create_time.getD 0) (e.header_create_time.getD 0) * 1000 }

/-! ## DingTalk adapter: `DingTalkAdapter._parse_message`
(src/chatagentcore/adapters/dingtalk/__init__.py, lines 90-130). -/

/-- The fields of a `dingtalk_stream.ChatbotMessage` the parser reads;
`to_dict()` is modelled by the `raw` bag. -/
structure DingMsg where
  message_type : String
  text_content : Option String
  text_list : List String
  conversation_type : String
  conversation_id : String
  sender_staff_id : String
  sender_id : String
  sender_nick : String
  message_id : String
  create_at : Option Int
  raw : List (String × String)
deriving Repr, DecidableEq

/-- Model of `DingTalkAdapter._parse_message`; `nowMs` models
`int(time.time() * 1000)`, the fallback timestamp. -/
def dingtalkParse (m : DingMsg) (nowMs : Int) : Message :=
  let text :=
    if m.message_type = "text" then m.text_content.getD ""
    else if m.message_type = "richText" then
      (if m.text_list ≠ [] then String.join m.text_list else "[富文本]")
    else "[" ++ m.message_type ++ "]"
  let conv_type := if m.conversation_type = "2" then "group" else "user"
  let sid := strOr m.sender_staff_id m.sender_id
  let conv_id := if conv_type = "user" then sid else m.conversation_id
  { platform := "dingtalk"
    message_id := m.message_id
    sender := ⟨sid, strOr m.sender_nick "DingTalkUser", "user"⟩
    conversation := ⟨conv_id, conv_type⟩
    content := ⟨if m.message_type = "text" then "text" else m.message_type, text, m.raw⟩
    timestamp := intOr (m.create_at.getD 0) nowMs }

/-! ## QQ adapter: `QQBotClient._handle_message`
(src/chatagentcore/adapters/qq/client.py, lines 48-97). -/

/-- The `author` object of a botpy message; absent attributes are `""`
(the `getattr(_, _, "")` default). -/
structure QQAuthor where
  id : String
  user_openid : String
  member_openid : String
deriving Repr, DecidableEq

/-- The fields of a botpy GroupMessage/C2CMessage the handler reads. -/
structure QQMsg where
  content : String
  author : Option QQAuthor
  author_id : String
  group_openid : String
  channel_id : String
  id : String
deriving Repr, DecidableEq

/-- Model of `QQBotClient._handle_message`: returns the canonical message
together with the `_last_msg_ids` entry it records (if any); `nowS` models
`int(time.time())`. -/
def qqHandleMessage (m : QQMsg) (conversation_type : String) (nowS : Int) :
    Message × Option (String × String) :=
  let sender_id0 :=
    match m.author with
    | some a => strOr (strOr a.id a.user_openid) a.member_openid
    | none => ""
  let sender_id := if sender_id0 = "" then m.author_id else sender_id0
  let conversation_id :=
    if conversation_type = "group" then m.group_openid
    else if conversation_type = "guild" then m.channel_id
    else if conversation_type = "user" then sender_id
    else ""
  let entry :=
    if m.id ≠ "" ∧ conversation_id ≠ "" then some (conversation_id, m.id) else none
  ({ platform := "qq"
     message_id := m.id
     sender := ⟨sender_id, "User", "user"⟩
     conversation := ⟨conversation_id, conversation_type⟩
     content := ⟨"text", m.content, []⟩
     timestamp := nowS }, entry)

/-! ## Configuration subsystem
(src/chatagentcore/core/config_manager.py and the pydantic validators of
src/chatagentcore/api/schemas/config.py).

A raw platform section models the YAML mapping for that platform: every
field is an `Option`, `none` meaning the key is absent from the document.
Pydantic v2 runs a `field_validator` only on values present in the input
(`validate_default` is off, so defaults are NOT validated): a validator
raises exactly when the section is enabled and the field is PRESENT and
empty, while an absent credential key silently falls back to `""`.
`info.data.get("enabled")` is falsy both when `enabled` is absent (its
default is `False`) and when it is explicitly `false`, modelled uniformly
by `enabled.getD false`. Only the fields carrying a `field_validator`
(`FeishuConfig.app_id/app_secret`,
`WecomConfig.corp_id/agent_id/secret/token/encoding_aes_key`,
`DingTalkConfig.app_key/app_secret`, `QQConfig.app_id/token`) are
modelled; fields with no validator (`type`, `verification_token`,
`encrypt_key`, `connection_mode`, `domain`, DingTalk webhook
`token`/`aes_key`) are inert for validation and omitted. Pydantic
validates fields and sections in declaration order, modelled by a
first-error `Except`. -/

/-- Raw `platforms.feishu` section of a document. -/
structure RawFeishu where
  enabled : Option Bool
  app_id : Option String
  app_secret : Option String
deriving Repr, DecidableEq

/-- Raw `platforms.wecom` section. -/
structure RawWecom where
  enabled : Option Bool
  corp_id : Option String
  agent_id : Option String
  secret : Option String
  token : Option String
  encoding_aes_key : Option String
deriving Repr, DecidableEq

/-- Raw `platforms.dingtalk` section (the stream-mode credentials that
carry validators). -/
structure RawDingtalk where
  enabled : Option Bool
  app_key : Option String
  app_secret : Option String
deriving Repr, DecidableEq

/-- Raw `platforms.qq` section. -/
structure RawQQ where
  enabled : Option Bool
  app_id : Option String
  token : Option String
deriving Repr, DecidableEq

/-- A configuration document: the four platform sections, each possibly
absent. Sections of the document not referenced by any claim (`server`,
`auth`, `logging`) are out of the model. -/
structure RawDoc where
  feishu : Option RawFeishu
  wecom : Option RawWecom
  dingtalk : Option RawDingtalk
  qq : Option RawQQ
deriving Repr, DecidableEq

/-- Validated `FeishuConfig` (absent keys resolved to their defaults). -/
structure FeishuConfig where
  enabled : Bool
  app_id : String
  app_secret : String
deriving Repr, DecidableEq

/-- Validated `WecomConfig`. -/
structure WecomConfig where
  enabled : Bool
  corp_id : String
  agent_id : String
  secret : String
  token : String
  encoding_aes_key : String
deriving Repr, DecidableEq

/-- Validated `DingTalkConfig`. -/
structure DingTalkConfig where
  enabled : Bool
  app_key : String
  app_secret : String
deriving Repr, DecidableEq

/-- Validated `QQConfig`. -/
structure QQConfig where
  enabled : Bool
  app_id : String
  token : String
deriving Repr, DecidableEq

/-- Defaults of `FeishuConfig` (pydantic field defaults). -/
def FeishuConfig.defaults : FeishuConfig := ⟨false, "", ""⟩

/-- Defaults of `WecomConfig`. -/
def WecomConfig.defaults : WecomConfig := ⟨false, "", "", "", "", ""⟩

/-- Defaults of `DingTalkConfig`. -/
def DingTalkConfig.defaults : DingTalkConfig := ⟨false, "", ""⟩

/-- Defaults of `QQConfig`. -/
def QQConfig.defaults : QQConfig := ⟨false, "", ""⟩

/-- `FeishuConfig.validate_feishu_keys` on `app_id` then `app_secret`:
each validator runs only when its field is present in the input, raising
when the section is enabled and the provided value is empty. An absent
key is NOT validated and resolves to the `""` default. -/
def validateFeishu (r : RawFeishu) : Except String FeishuConfig :=
  if r.enabled.getD false ∧ r.app_id = some "" then
    .error "app_id is required when platform is enabled"
  else if r.enabled.getD false ∧ r.app_secret = some "" then
    .error "app_secret is required when platform is enabled"
  else .ok ⟨r.enabled.getD false, r.app_id.getD "", r.app_secret.getD ""⟩

/-- `WecomConfig.validate_wecom_keys` over its five credential fields. -/
def validateWecom (r : RawWecom) : Except String WecomConfig :=
  if r.enabled.getD false ∧ r.corp_id = some "" then
    .error "corp_id is required when platform is enabled"
  else if r.enabled.getD false ∧ r.agent_id = some "" then
    .error "agent_id is required when platform is enabled"
  else if r.enabled.getD false ∧ r.secret = some "" then
    .error "secret is required when platform is enabled"
  else if r.enabled.getD false ∧ r.token = some "" then
    .error "token is required when platform is enabled"
  else if r.enabled.getD false ∧ r.encoding_aes_key = some "" then
    .error "encoding_aes_key is required when platform is enabled"
  else .ok ⟨r.enabled.getD false, r.corp_id.getD "", r.agent_id.getD "",
    r.secret.getD "", r.token.getD "", r.encoding_aes_key.getD ""⟩

/-- `DingTalkConfig.validate_dingtalk_keys` over `app_key`, `app_secret`. -/
def validateDingtalk (r : RawDingtalk) : Except String DingTalkConfig :=
  if r.enabled.getD false ∧ r.app_key = some "" then
    .error "app_key is required when platform is enabled"
  else if r.enabled.getD false ∧ r.app_secret = some "" then
    .error "app_secret is required when platform is enabled"
  else .ok ⟨r.enabled.getD false, r.app_key.getD "", r.app_secret.getD ""⟩

/-- `QQConfig.validate_qq_keys` over `app_id`, `token`. -/
def validateQQ (r : RawQQ) : Except String QQConfig :=
  if r.enabled.getD false ∧ r.app_id = some "" then
    .error "app_id is required when platform is enabled"
  else if r.enabled.getD false ∧ r.token = some "" then
    .error "token is required when platform is enabled"
  else .ok ⟨r.enabled.getD false, r.app_id.getD "", r.token.getD ""⟩

/-- Validated `platforms` block (`PlatformsConfig`). -/
structure PlatformsConfig where
  feishu : FeishuConfig
  wecom : WecomConfig
  dingtalk : DingTalkConfig
  qq : QQConfig
deriving Repr, DecidableEq

/-- Validated `Settings` (restricted to the modelled `platforms` block). -/
structure Settings where
  platforms : PlatformsConfig
deriving Repr, DecidableEq

/-- The all-defaults `Settings()` value produced when the configuration
document is absent (defaults are constructed without validation). -/
def Settings.defaults : Settings :=
  ⟨⟨FeishuConfig.defaults, WecomConfig.defaults, DingTalkConfig.defaults, QQConfig.defaults⟩⟩

/-- Validation of an optional `feishu` section: a provided section runs
its validators, an absent one yields the defaults unvalidated. -/
def validateFeishuOpt : Option RawFeishu → Except String FeishuConfig
  | some r => validateFeishu r
  | none => .ok FeishuConfig.defaults

/-- Validation of an optional `wecom` section. -/
def validateWecomOpt : Option RawWecom → Except String WecomConfig
  | some r => validateWecom r
  | none => .ok WecomConfig.defaults

/-- Validation of an optional `dingtalk` section. -/
def validateDingtalkOpt : Option RawDingtalk → Except String DingTalkConfig
  | some r => validateDingtalk r
  | none => .ok DingTalkConfig.defaults

/-- Validation of an optional `qq` section. -/
def validateQQOpt : Option RawQQ → Except String QQConfig
  | some r => validateQQ r
  | none => .ok QQConfig.defaults

/-- `Settings.model_validate(raw)`: validates the provided platform
sections in declaration order; an absent section yields its defaults
unvalidated. -/
def settingsValidate (d : RawDoc) : Except String Settings := do
  let f ← validateFeishuOpt d.feishu
  let w ← validateWecomOpt d.wecom
  let dt ← validateDingtalkOpt d.dingtalk
  let q ← validateQQOpt d.qq
  return ⟨⟨f, w, dt, q⟩⟩

/-- Mutable state of a `ConfigManager`: `version`, the Settings Snapshot
`_config` (`none` until the first load), and `_raw_config` (`none` models
the empty dict). -/
structure ConfigState where
  version : Nat
  config : Option Settings
  raw : Option RawDoc
deriving Repr, DecidableEq

namespace ConfigManager

/-- Model of `ConfigManager.load`. `doc = none` models an absent
configuration file: the code warns, installs `Settings()` and returns
early — before the `self.version += 1` line. `doc = some d` models a
present file whose YAML parsed to `d`: `_raw_config` is assigned, then
`Settings.model_validate` either raises (snapshot and version untouched)
or succeeds, after which `_validate_config` only logs warnings and
`version` is incremented. Returns the new state and the outcome. -/
def load (doc : Option RawDoc) (st : ConfigState) : ConfigState × Except String Settings :=
  match doc with
  | none =>
    ({ st with config := some Settings.defaults, raw := none }, .ok Settings.defaults)
  | some d =>
    match settingsValidate d with
    | .error e => ({ st with raw := some d }, .error e)
    | .ok s => ({ version := st.version + 1, config := some s, raw := some d }, .ok s)

/-- Model of `ConfigManager.reload`: runs `load`, then notifies the
registered callbacks (which cannot touch `version` or the snapshot, and
whose exceptions are swallowed); state evolution is exactly `load`. -/
def reload (doc : Option RawDoc) (st : ConfigState) : ConfigState × Except String Settings :=
  load doc st

end ConfigManager

/-! ## Message router (src/chatagentcore/core/router.py). -/

namespace MessageRouter

/-- Errors `route_outgoing` / `send_and_wait` can raise: the
`ValueError("Adapter not loaded for platform: ...")` the spec taxonomy
names `AdapterNotLoaded`, an adapter transport error re-raised unchanged,
and the `asyncio.TimeoutError` of `wait_for` (spec: `SendTimeout`). -/
inductive RouteError
  | adapterNotLoaded (platform : String)
  | transport (e : String)
  | sendTimeout
deriving Repr, DecidableEq

/-- A live adapter instance, reduced to its `send_message` capability:
either a platform-issued message id or a transport error. -/
structure Adapter where
  send : String → String → String → String → Except String String

/-- Model of `MessageRouter.route_outgoing`: `adapters` is the adapter
manager's `get_adapter` lookup. A missing adapter raises; otherwise the
call delegates to `send_message`, whose exception the `except` clause
logs and re-raises unchanged. -/
def route_outgoing (adapters : String → Option Adapter)
    (platform toId message_type content conversation_type : String) :
    Except RouteError String :=
  match adapters platform with
  | none => .error (.adapterNotLoaded platform)
  | some a =>
    match a.send toId message_type content conversation_type with
    | .ok message_id => .ok message_id
    | .error e => .error (.transport e)

/-- Mutable state of the router: the keys of `_pending_messages`
(message id → future); the future values play no role in the claims. -/
structure RouterState where
  pending : List String
deriving Repr, DecidableEq

/-- Model of `MessageRouter.send_and_wait`. `message_id` is the
`create_message_id()` result (a random uuid, taken as a parameter);
`timedOut` is the environment's choice of whether `asyncio.wait_for`
hits its deadline. The body stores a future under `message_id`, awaits
`route_outgoing` (result, transport error, or timeout), and the `finally`
block pops the `message_id` entry on every path. -/
def send_and_wait (adapters : String → Option Adapter)
    (platform toId message_type content conversation_type : String)
    (timedOut : Bool) (message_id : String) (st : RouterState) :
    RouterState × Except RouteError String :=
  let p1 := if st.pending.contains message_id then st.pending else message_id :: st.pending
  let outcome : Except RouteError String :=
    if timedOut then .error .sendTimeout
    else route_outgoing adapters platform toId message_type content conversation_type
  (⟨p1.filter (fun i => i ≠ message_id)⟩, outcome)

end MessageRouter

/-! ## Event distribution hub
(src/chatagentcore/api/websocket/manager.py; the `/ws/events` endpoint
loop of src/chatagentcore/api/main.py).

Websockets are identified by `Nat`; `ok ws` tells whether a network send
to `ws` succeeds (the transport environment). Time is an `Int` of
seconds, passed explicitly where the code calls `time.time()`. -/

/-- Per-connection record of `ConnectionManager._connections`. -/
structure ConnInfo where
  user_id : String
  authenticated : Bool
  last_seen : Int
deriving Repr, DecidableEq

/-- State of a `ConnectionManager`: `_connections`,
`_subscriptions` (user id → channel → set of websockets) and
`_valid_tokens`. -/
structure ManagerState where
  connections : List (Nat × ConnInfo)
  subscriptions : List (String × List (String × List Nat))
  valid_tokens : List String
deriving Repr, DecidableEq

/-- Server→client frames (`WSMessage`); the payload fields the claims
mention are carried explicitly. -/
inductive ServerFrame
  | auth_ack (user : Option String)
  | errorFrame (error : String) (code : Nat)
  | pong (ping_timestamp : Option Int)
  | subscribedEvent (channels : List String)
  | messageFrame (channel : String)
deriving Repr, DecidableEq

/-- Client→server frames of the `/ws/events` endpoint. -/
inductive ClientFrame
  | auth (token : String)
  | ping (ts : Int)
  | subscribe (channels : List String)
  | unknown
deriving Repr, DecidableEq

/-- What the endpoint loop does after a frame: keep looping, or close the
socket with a policy code and stop. -/
inductive StepOutcome
  | next
  | closed (code : Nat)
deriving Repr, DecidableEq

namespace ConnectionManager

/-- `f"ws_user_{id(websocket)}"`. -/
def user_id_for (ws : Nat) : String := "ws_user_" ++ toString ws

/-- Model of `ConnectionManager.connect`: accept, record the connection
unauthenticated with `last_seen = now`, and give it an empty subscription
map. A fresh websocket object is a fresh key. -/
def connect (st : ManagerState) (ws : Nat) (now : Int) : ManagerState × String :=
  let uid := user_id_for ws
  ({ st with
      connections := st.connections ++ [(ws, ⟨uid, false, now⟩)]
      subscriptions := st.subscriptions ++ [(uid, [])] }, uid)

/-- Model of `ConnectionManager.disconnect`: unknown websockets are
ignored; otherwise the code unsubscribes the websocket from each of its
user's channels, deletes the user's subscription entry, and deletes the
connection record — the net effect is dropping both entries. -/
def disconnect (st : ManagerState) (ws : Nat) : ManagerState :=
  match alookup st.connections ws with
  | none => st
  | some info =>
    { st with
      connections := st.connections.filter (fun p => p.1 ≠ ws)
      subscriptions := st.subscriptions.filter (fun q => q.1 ≠ info.user_id) }

/-- Model of `ConnectionManager.update_last_seen`. -/
def update_last_seen (st : ManagerState) (ws : Nat) (now : Int) : ManagerState :=
  { st with connections := st.connections.map (fun p =>
      (p.1, if p.1 = ws then { p.2 with last_seen := now } else p.2)) }

/-- Model of `ConnectionManager.is_authenticated`. -/
def is_authenticated (st : ManagerState) (ws : Nat) : Bool :=
  ((alookup st.connections ws).map (fun i => i.authenticated)).getD false

/-- Model of `ConnectionManager.set_authenticated`. -/
def set_authenticated (st : ManagerState) (ws : Nat) (b : Bool) : ManagerState :=
  { st with connections := st.connections.map (fun p =>
      (p.1, if p.1 = ws then { p.2 with authenticated := b } else p.2)) }

/-- Model of `ConnectionManager.validate_token`. -/
def validate_token (st : ManagerState) (token : String) : Bool :=
  st.valid_tokens.contains token

/-- Model of `ConnectionManager.get_connection_id`. -/
def get_connection_id (st : ManagerState) (ws : Nat) : Option String :=
  (alookup st.connections ws).map (fun i => i.user_id)

/-- Python `set.add` on a set-as-list. -/
def setAdd (l : List Nat) (ws : Nat) : List Nat :=
  if l.contains ws then l else l ++ [ws]

/-- Model of `ConnectionManager.subscribe`: unknown websockets return
`False`; otherwise the websocket is added to its user's subscriber set for
`channel` (creating the channel entry if needed) and `True` is returned.
No authentication check happens here. -/
def subscribe (st : ManagerState) (ws : Nat) (channel : String) : ManagerState × Bool :=
  match alookup st.connections ws with
  | none => (st, false)
  | some info =>
    let subs := st.subscriptions.map (fun q =>
      if q.1 = info.user_id then
        (q.1,
         match alookup q.2 channel with
         | some _ => q.2.map (fun c => if c.1 = channel then (c.1, setAdd c.2 ws) else c)
         | none => q.2 ++ [(channel, [ws])])
      else q)
    ({ st with subscriptions := subs }, true)

/-- Model of `ConnectionManager.send_json`: a send failure is caught
INSIDE `send_json`, the connection is force-disconnected, and the method
returns normally — the caller never observes the exception. The returned
trace holds the frame when delivery succeeded. -/
def send_json (ok : Nat → Bool) (st : ManagerState) (ws : Nat) (frame : ServerFrame) :
    ManagerState × List (Nat × ServerFrame) :=
  if ok ws then (st, [(ws, frame)])
  else (disconnect st ws, [])

/-- Result of one `broadcast` call: final state, the returned
`sent_count`, the websockets delivery was attempted to (in order), and
the successfully delivered frames. -/
structure BroadcastAcc where
  state : ManagerState
  sent_count : Nat
  attempted : List Nat
  delivered : List (Nat × ServerFrame)
deriving Repr, DecidableEq

/-- Inner delivery loop of `broadcast` over a list of target websockets.
`sent_count` increments on EVERY iteration: `send_json` cannot raise (it
absorbs the failure and disconnects), so the `except` branch of
`broadcast` that would skip the increment is unreachable. -/
def sendAll (ok : Nat → Bool) (data : ServerFrame) :
    List Nat → BroadcastAcc → BroadcastAcc
  | [], acc => acc
  | ws :: rest, acc =>
    let r := send_json ok acc.state ws data
    sendAll ok data rest
      ⟨r.1, acc.sent_count + 1, acc.attempted ++ [ws], acc.delivered ++ r.2⟩

/-- Outer loop of the non-wildcard branch of `broadcast`: for every user
in the snapshot of `_subscriptions.items()`, if the user has the channel,
deliver to the snapshot of that channel's subscriber set. Reading the
sets from the initial snapshot is faithful: a user's sets contain only
that user's own websocket (user ids derive from websocket identity), so a
mid-broadcast disconnect caused by a failed send never alters a later
user's entry. -/
def broadcastUsers (ok : Nat → Bool) (data : ServerFrame) (channel : String) :
    List (String × List (String × List Nat)) → BroadcastAcc → BroadcastAcc
  | [], acc => acc
  | (_, chans) :: rest, acc =>
    match alookup chans channel with
    | some l => broadcastUsers ok data channel rest (sendAll ok data l acc)
    | none => broadcastUsers ok data channel rest acc

/-- Model of `ConnectionManager.broadcast`: the wildcard `"*"` targets a
snapshot of all connection keys, any other channel targets the current
subscriber sets of that channel. The `disconnected` list the code keeps
stays empty (dead code), so no cleanup pass is modelled. -/
def broadcast (ok : Nat → Bool) (st : ManagerState) (data : ServerFrame)
    (channel : String) : BroadcastAcc :=
  if channel = "*" then sendAll ok data (st.connections.map Prod.fst) ⟨st, 0, [], []⟩
  else broadcastUsers ok data channel st.subscriptions ⟨st, 0, [], []⟩

/-- The websockets currently subscribed to `channel`, in hub iteration
order (union over every user's subscriber set for that channel). -/
def collectChannel (channel : String) :
    List (String × List (String × List Nat)) → List Nat
  | [] => []
  | (_, chans) :: rest => ((alookup chans channel).getD []) ++ collectChannel channel rest

/-- The current subscriber set of a channel. -/
def subscribersOf (st : ManagerState) (channel : String) : List Nat :=
  collectChannel channel st.subscriptions

/-- Model of `ConnectionManager.prune_stale_connections`: collect every
connection with `now - last_seen > timeout`, close (network-level, no
state effect, errors ignored) and disconnect each, and return how many
were collected. -/
def prune_stale_connections (st : ManagerState) (now timeout : Int) :
    ManagerState × Nat :=
  let stale := (st.connections.filter (fun p => now - p.2.last_seen > timeout)).map Prod.fst
  (stale.foldl disconnect st, stale.length)

/-- Model of `ConnectionManager.handle_auth`: a valid token marks the
connection authenticated and sends `auth_ack`; an invalid one sends an
`error` frame with code 401 and changes nothing. -/
def handle_auth (ok : Nat → Bool) (st : ManagerState) (ws : Nat) (token : String) :
    ManagerState × Bool × List (Nat × ServerFrame) :=
  if validate_token st token then
    let st1 := set_authenticated st ws true
    let r := send_json ok st1 ws (.auth_ack (get_connection_id st1 ws))
    (r.1, true, r.2)
  else
    let r := send_json ok st ws (.errorFrame "Invalid token" 401)
    (r.1, false, r.2)

/-- Model of `ConnectionManager.handle_subscribe`: subscribe to every
requested channel, then acknowledge with a `subscribed` event. -/
def handle_subscribe (ok : Nat → Bool) (st : ManagerState) (ws : Nat)
    (channels : List String) : ManagerState × List (Nat × ServerFrame) :=
  let st1 := channels.foldl (fun s c => (subscribe s ws c).1) st
  send_json ok st1 ws (.subscribedEvent channels)

/-- Model of one iteration of the `/ws/events` endpoint loop
(`websocket_events` in api/main.py): refresh `last_seen`, then dispatch
on the frame type. A `subscribe` frame from a connection that is not
authenticated makes the endpoint run
`await websocket.close(code=4008, reason="Authenticate first"); return`,
after which the endpoint's `finally` block disconnects the websocket —
`ConnectionManager.subscribe` is never invoked on that path. -/
def websocket_events_step (ok : Nat → Bool) (st : ManagerState) (ws : Nat)
    (now : Int) (f : ClientFrame) :
    ManagerState × StepOutcome × List (Nat × ServerFrame) :=
  let st0 := update_last_seen st ws now
  match f with
  | .auth tok =>
    let r := handle_auth ok st0 ws tok
    (r.1, .next, r.2.2)
  | .ping ts =>
    let r := send_json ok st0 ws (.pong (some ts))
    (r.1, .next, r.2)
  | .subscribe chans =>
    if is_authenticated st0 ws then
      let r := handle_subscribe ok st0 ws chans
      (r.1, .next, r.2)
    else
      (disconnect st0 ws, .closed 4008, [])
  | .unknown => (st0, .next, [])

end ConnectionManager

/-! ## Shared lemmas about the model's primitives. -/

/-- A lookup that misses means no entry carries that key. -/
lemma alookup_eq_none_forall {α β : Type} [DecidableEq α] (l : List (α × β)) (a : α) :
    alookup l a = none → ∀ p ∈ l, p.1 ≠ a := by
  induction l with
  | nil => intro _ p hp; cases hp
  | cons q rest ih =>
    intro h p hp
    by_cases hq : q.1 = a
    · simp [alookup, hq] at h
    · rcases List.mem_cons.mp hp with hp | hp
      · simpa [hp] using hq
      · exact ih (by simpa [alookup, hq] using h) p hp

/-- Lookup through a value-only update of an association list. -/
lemma alookup_map_value {α β : Type} [DecidableEq α] (f : α → β → β)
    (l : List (α × β)) (a : α) :
    alookup (l.map (fun p => (p.1, f p.1 p.2))) a = (alookup l a).map (f a) := by
  induction l with
  | nil => rfl
  | cons q rest ih =>
    by_cases hq : q.1 = a
    · subst hq; simp [alookup]
    · simp [alookup, hq, ih]

/-! ## Claim C4: asymmetric conversation-id normalization. -/

/-- C4: for every canonical message any adapter variant produces, a
one-to-one (`user`) conversation carries the sender's platform identifier
as `conversation.id`, and a `group` conversation carries the
platform-issued group/channel handle (Feishu `chat_id`, DingTalk
`conversation_id`, QQ `group_openid`). -/
theorem conversation_id_rule (e : FeishuEvent) (dm : DingMsg) (nowMs : Int)
    (qm : QQMsg) (ct : String) (nowS : Int) :
    ((feishuParse e).conversation.type = "user" →
        (feishuParse e).conversation.id = (feishuParse e).sender.id)
    ∧ ((feishuParse e).conversation.type = "group" →
        (feishuParse e).conversation.id = e.message_obj.chat_id.getD "")
    ∧ ((dingtalkParse dm nowMs).conversation.type = "user" →
        (dingtalkParse dm nowMs).conversation.id = (dingtalkParse dm nowMs).sender.id)
    ∧ ((dingtalkParse dm nowMs).conversation.type = "group" →
        (dingtalkParse dm nowMs).conversation.id = dm.conversation_id)
    ∧ ((qqHandleMessage qm ct nowS).1.conversation.type = "user" →
        (qqHandleMessage qm ct nowS).1.conversation.id = (qqHandleMessage qm ct nowS).1.sender.id)
    ∧ ((qqHandleMessage qm ct nowS).1.conversation.type = "group" →
        (qqHandleMessage qm ct nowS).1.conversation.id = qm.group_openid) := by
  refine ⟨?_, ?_, ?_, ?_, ?_, ?_⟩
  · intro h
    simp only [feishuParse] at h ⊢
    rw [if_pos h]
  · intro h
    simp only [feishuParse] at h ⊢
    rw [if_neg (by rw [h]; decide)]
  · intro h
    by_cases hc : dm.conversation_type = "2" <;> simp [dingtalkParse, hc] at h ⊢
  · intro h
    by_cases hc : dm.conversation_type = "2" <;> simp [dingtalkParse, hc] at h ⊢
  · intro h
    simp only [qqHandleMessage] at h ⊢
    subst h
    simp
  · intro h
    simp only [qqHandleMessage] at h ⊢
    subst h
    simp

/-- Concrete instances of the C4 rule: a Feishu event with
`chat_type = "user"`, a DingTalk group message, and a QQ group message. -/
theorem conversation_id_rule_witness :
    (feishuParse ⟨none, ⟨some "m1", some "oc_1", some "text", none, some [("text", "hi")],
        some "user", some 1⟩, some ⟨some ⟨"ou_alice"⟩, none, none, none⟩⟩).conversation.id
      = "ou_alice"
    ∧ (dingtalkParse ⟨"text", some "hi", [], "2", "cid_g", "staff1", "s1", "nick", "mid", some 5, []⟩ 0).conversation.id
      = "cid_g"
    ∧ (qqHandleMessage ⟨"hi", some ⟨"a1", "", ""⟩, "", "grp9", "", "q1"⟩ "group" 0).1.conversation.id
      = "grp9" := by
  refine ⟨?_, ?_, ?_⟩
  · have h := (conversation_id_rule
      ⟨none, ⟨some "m1", some "oc_1", some "text", none, some [("text", "hi")],
        some "user", some 1⟩, some ⟨some ⟨"ou_alice"⟩, none, none, none⟩⟩
      ⟨"text", some "hi", [], "2", "cid_g", "staff1", "s1", "nick", "mid", some 5, []⟩ 0
      ⟨"hi", some ⟨"a1", "", ""⟩, "", "grp9", "", "q1"⟩ "group" 0).1 (by decide)
    rw [h]; decide
  · exact (conversation_id_rule
      ⟨none, ⟨some "m1", some "oc_1", some "text", none, some [("text", "hi")],
        some "user", some 1⟩, some ⟨some ⟨"ou_alice"⟩, none, none, none⟩⟩
      ⟨"text", some "hi", [], "2", "cid_g", "staff1", "s1", "nick", "mid", some 5, []⟩ 0
      ⟨"hi", some ⟨"a1", "", ""⟩, "", "grp9", "", "q1"⟩ "group" 0).2.2.2.1 (by decide)
  · exact (conversation_id_rule
      ⟨none, ⟨some "m1", some "oc_1", some "text", none, some [("text", "hi")],
        some "user", some 1⟩, some ⟨some ⟨"ou_alice"⟩, none, none, none⟩⟩
      ⟨"text", some "hi", [], "2", "cid_g", "staff1", "s1", "nick", "mid", some 5, []⟩ 0
      ⟨"hi", some ⟨"a1", "", ""⟩, "", "grp9", "", "q1"⟩ "group" 0).2.2.2.2.2 (by decide)

/-! ## Claim C5: outbound routing. -/

/-- C5: `route_outgoing` raises `AdapterNotLoaded` when no live adapter
exists for the platform; otherwise it delegates to the adapter's
`send_message`, returning its message id and propagating its transport
error unchanged. -/
theorem route_outgoing_spec (adapters : String → Option MessageRouter.Adapter)
    (platform toId message_type content conversation_type : String) :
    (adapters platform = none →
      MessageRouter.route_outgoing adapters platform toId message_type content conversation_type
        = .error (.adapterNotLoaded platform))
    ∧ (∀ a message_id, adapters platform = some a →
        a.send toId message_type content conversation_type = .ok message_id →
        MessageRouter.route_outgoing adapters platform toId message_type content conversation_type
          = .ok message_id)
    ∧ (∀ a e, adapters platform = some a →
        a.send toId message_type content conversation_type = .error e →
        MessageRouter.route_outgoing adapters platform toId message_type content conversation_type
          = .error (.transport e)) := by
  refine ⟨fun h => ?_, fun a message_id h1 h2 => ?_, fun a e h1 h2 => ?_⟩ <;>
    simp [MessageRouter.route_outgoing, *]

/-- A live adapter whose transport always succeeds with id `mid_1`. -/
def okAdapter : MessageRouter.Adapter := ⟨fun _ _ _ _ => .ok "mid_1"⟩

/-- Concrete instances of C5: an unknown platform raises
`AdapterNotLoaded`; a loaded adapter's message id is returned. -/
theorem route_outgoing_spec_witness :
    MessageRouter.route_outgoing (fun _ => none) "unknown-platform" "u" "text" "hi" "user"
      = .error (.adapterNotLoaded "unknown-platform")
    ∧ MessageRouter.route_outgoing (fun _ => some okAdapter) "feishu" "u" "text" "hi" "user"
      = .ok "mid_1" :=
  ⟨(route_outgoing_spec (fun _ => none) "unknown-platform" "u" "text" "hi" "user").1 rfl,
   (route_outgoing_spec (fun _ => some okAdapter) "feishu" "u" "text" "hi" "user").2.1
     okAdapter "mid_1" rfl rfl⟩

/-! ## Claim C10: `send_and_wait` restores the pending-message map. -/

/-- C10: whatever `send_and_wait` returns — a message id, a timeout, or a
propagated adapter error — the `finally` block removes the bookkeeping
entry it created, and with no concurrent calls (the generated id not
already pending) the pending map ends exactly as it began. -/
theorem send_and_wait_pending_restored (adapters : String → Option MessageRouter.Adapter)
    (platform toId message_type content conversation_type : String)
    (timedOut : Bool) (message_id : String) (st : MessageRouter.RouterState) :
    (MessageRouter.send_and_wait adapters platform toId message_type content
        conversation_type timedOut message_id st).1.pending.contains message_id = false
    ∧ (st.pending.contains message_id = false →
       (MessageRouter.send_and_wait adapters platform toId message_type content
          conversation_type timedOut message_id st).1.pending = st.pending) := by
  constructor
  · simp [MessageRouter.send_and_wait, List.elem_iff]
  · intro h
    simp only [MessageRouter.send_and_wait, h, Bool.false_eq_true, if_false]
    simp [List.elem_iff] at h
    simp [List.filter_cons]
    exact fun x hx hxa => h (hxa ▸ hx)

/-- Concrete instance of C10: after a successful `send_and_wait` the
generated id `"m1"` is gone and the pending map is back to `["m0"]`. -/
theorem send_and_wait_pending_restored_witness :
    (MessageRouter.send_and_wait (fun _ => some okAdapter) "feishu" "u" "text" "hi" "user"
        false "m1" ⟨["m0"]⟩).1.pending.contains "m1" = false
    ∧ (MessageRouter.send_and_wait (fun _ => some okAdapter) "feishu" "u" "text" "hi" "user"
        false "m1" ⟨["m0"]⟩).1.pending = ["m0"] :=
  ⟨(send_and_wait_pending_restored (fun _ => some okAdapter) "feishu" "u" "text" "hi" "user"
      false "m1" ⟨["m0"]⟩).1,
   (send_and_wait_pending_restored (fun _ => some okAdapter) "feishu" "u" "text" "hi" "user"
      false "m1" ⟨["m0"]⟩).2 (by decide)⟩

/-! ## Claim C2: version counting of configuration loads. -/

/-- C2 counterexample: a `load` with the configuration document absent
succeeds (returns the all-defaults configuration) yet does NOT increment
`version` — the absent-file branch returns before `self.version += 1`. -/
theorem load_absent_version_counterexample :
    exOk (ConfigManager.load none ⟨0, none, none⟩).2 = true
    ∧ (ConfigManager.load none ⟨0, none, none⟩).1.version ≠ 0 + 1 := by
  constructor
  · rfl
  · decide

/-- C2 amended: `version` increments by exactly one on a successful load
of a PRESENT document, stays unchanged on a failed load and on the
absent-document defaults load, and never decreases. -/
theorem load_version_increment_monotone (doc : Option RawDoc) (st : ConfigState) :
    (ConfigManager.load doc st).1.version
      = (if doc.isSome && exOk (ConfigManager.load doc st).2 then st.version + 1
         else st.version)
    ∧ st.version ≤ (ConfigManager.load doc st).1.version := by
  cases doc with
  | none => simp [ConfigManager.load, exOk]
  | some d =>
    cases h : settingsValidate d <;>
      simp [ConfigManager.load, h, exOk, Nat.le_succ]

/-! ## Claim C3: fail-closed credential validation. -/

/-- C3 at a failing input: the document `platforms: {feishu: {enabled: true}}`
— Feishu enabled, the `app_id`/`app_secret` keys absent — has an enabled
platform whose required credentials are empty, yet `load()` SUCCEEDS:
pydantic runs the credential `field_validator`s only on values present in
the input, so the absent keys default to `""` unvalidated,
`_validate_config` merely logs warnings, and the load installs the
snapshot — exposing `enabled = true` with empty credentials — and
increments `version`, where the claim (and the very error message these
validators raise, `... is required when platform is enabled`) requires
that load to fail as a whole with the prior snapshot retained. -/
theorem load_enabled_missing_credentials_succeeds :
    exOk (ConfigManager.load
        (some ⟨some ⟨some true, none, none⟩, none, none, none⟩) ⟨0, none, none⟩).2 = true
    ∧ (ConfigManager.load
        (some ⟨some ⟨some true, none, none⟩, none, none, none⟩) ⟨0, none, none⟩).1.version = 1
    ∧ (ConfigManager.load
        (some ⟨some ⟨some true, none, none⟩, none, none, none⟩) ⟨0, none, none⟩).1.config
      = some ⟨⟨⟨true, "", ""⟩, WecomConfig.defaults, DingTalkConfig.defaults,
          QQConfig.defaults⟩⟩ := by
  decide

/-- By contrast, the same configuration with `app_id` explicitly written
as `""` IS rejected with the prior state retained: the validators enforce
the requirement whenever they run, and only the absent-key path escapes
them. -/
lemma load_enabled_empty_credential_fails :
    exOk (ConfigManager.load
        (some ⟨some ⟨some true, some "", none⟩, none, none, none⟩) ⟨0, none, none⟩).2 = false
    ∧ (ConfigManager.load
        (some ⟨some ⟨some true, some "", none⟩, none, none, none⟩) ⟨0, none, none⟩).1.version
      = 0 := by
  decide

/-! ## Hub lemmas. -/

/-- `disconnect` always leaves exactly the connection entries with a
different key (dropping nothing when the websocket is unknown). -/
lemma disconnect_connections (st : ManagerState) (ws : Nat) :
    (ConnectionManager.disconnect st ws).connections
      = st.connections.filter (fun p => p.1 ≠ ws) := by
  unfold ConnectionManager.disconnect
  cases h : alookup st.connections ws with
  | none =>
    have hall := alookup_eq_none_forall _ _ h
    exact (List.filter_eq_self.mpr (fun p hp => by simpa using hall p hp)).symm
  | some info => rfl

/-- Disconnecting a list of websockets keeps exactly the other keys. -/
lemma foldl_disconnect_connections (S : List Nat) (st : ManagerState) :
    (S.foldl ConnectionManager.disconnect st).connections
      = st.connections.filter (fun p => !(S.contains p.1)) := by
  induction S generalizing st with
  | nil => simp
  | cons ws rest ih =>
    rw [List.foldl_cons, ih, disconnect_connections, List.filter_filter]
    apply List.filter_congr
    intro p _hp
    by_cases hxw : p.1 = ws <;> by_cases hr : rest.contains p.1 <;>
      simp [List.contains_cons, hxw, hr]

/-! ## Claim C9: pruning stale connections. -/

/-- C9: `prune_stale_connections` removes exactly the connections whose
`last_seen` is more than `timeout` old, keeps the rest, and returns the
number pruned. -/
theorem prune_stale_spec (st : ManagerState) (now timeout : Int)
    (hnd : (st.connections.map Prod.fst).Nodup) :
    (ConnectionManager.prune_stale_connections st now timeout).2
      = (st.connections.filter (fun p => now - p.2.last_seen > timeout)).length
    ∧ (ConnectionManager.prune_stale_connections st now timeout).1.connections
      = st.connections.filter (fun p => ¬(now - p.2.last_seen > timeout)) := by
  constructor
  · simp [ConnectionManager.prune_stale_connections]
  · unfold ConnectionManager.prune_stale_connections
    rw [foldl_disconnect_connections]
    apply List.filter_congr
    intro p hp
    have hiff : p.1 ∈ (st.connections.filter
        (fun q => now - q.2.last_seen > timeout)).map Prod.fst
        ↔ now - p.2.last_seen > timeout := by
      constructor
      · intro hmem
        obtain ⟨q, hq, hq1⟩ := List.mem_map.mp hmem
        obtain ⟨hqmem, hqpred⟩ := List.mem_filter.mp hq
        have hqp : q = p := List.inj_on_of_nodup_map hnd hqmem hp hq1
        rw [← hqp]
        exact of_decide_eq_true hqpred
      · intro hpred
        exact List.mem_map.mpr ⟨p, List.mem_filter.mpr ⟨hp, decide_eq_true hpred⟩, rfl⟩
    by_cases hpred : now - p.2.last_seen > timeout <;>
      simp [hiff, hpred, List.elem_iff]

/-- Concrete instance of C9 (the spec's example): at `now = 200` with a
90-second timeout, the connection last seen at 80 (120 s ago) is pruned
and the one last seen at 190 (10 s ago) is retained; one connection is
reported pruned. -/
theorem prune_stale_spec_witness :
    (ConnectionManager.prune_stale_connections
        ⟨[(1, ⟨"ws_user_1", false, 80⟩), (2, ⟨"ws_user_2", false, 190⟩)],
         [("ws_user_1", []), ("ws_user_2", [])], []⟩ 200 90).2 = 1
    ∧ (ConnectionManager.prune_stale_connections
        ⟨[(1, ⟨"ws_user_1", false, 80⟩), (2, ⟨"ws_user_2", false, 190⟩)],
         [("ws_user_1", []), ("ws_user_2", [])], []⟩ 200 90).1.connections
      = [(2, ⟨"ws_user_2", false, 190⟩)] := by
  have h := prune_stale_spec
    ⟨[(1, ⟨"ws_user_1", false, 80⟩), (2, ⟨"ws_user_2", false, 190⟩)],
     [("ws_user_1", []), ("ws_user_2", [])], []⟩ 200 90 (by decide)
  exact ⟨h.1.trans (by decide), h.2.trans (by decide)⟩

/-! ## Claim C8: broadcast targeting. -/

/-- The inner delivery loop attempts exactly its target list, in order. -/
lemma sendAll_attempted (ok : Nat → Bool) (data : ServerFrame) (l : List Nat)
    (acc : ConnectionManager.BroadcastAcc) :
    (ConnectionManager.sendAll ok data l acc).attempted = acc.attempted ++ l := by
  induction l generalizing acc with
  | nil => simp [ConnectionManager.sendAll]
  | cons ws rest ih => simp [ConnectionManager.sendAll, ih]

/-- The outer loop attempts exactly the union of the channel's subscriber
sets across the user snapshot. -/
lemma broadcastUsers_attempted (ok : Nat → Bool) (data : ServerFrame) (channel : String)
    (subs : List (String × List (String × List Nat)))
    (acc : ConnectionManager.BroadcastAcc) :
    (ConnectionManager.broadcastUsers ok data channel subs acc).attempted
      = acc.attempted ++ ConnectionManager.collectChannel channel subs := by
  induction subs generalizing acc with
  | nil => simp [ConnectionManager.broadcastUsers, ConnectionManager.collectChannel]
  | cons q rest ih =>
    obtain ⟨u, chans⟩ := q
    cases h : alookup chans channel with
    | none =>
      simp [ConnectionManager.broadcastUsers, ConnectionManager.collectChannel, h, ih]
    | some l =>
      simp [ConnectionManager.broadcastUsers, ConnectionManager.collectChannel, h, ih,
        sendAll_attempted, List.append_assoc]

/-- C8: broadcasting to the wildcard `"*"` attempts delivery to every
live connection; broadcasting to any other channel attempts delivery
exactly to that channel's current subscriber set, so a connection
subscribed only to other channels receives nothing. -/
theorem broadcast_targets (ok : Nat → Bool) (st : ManagerState) (data : ServerFrame)
    (channel : String) :
    (ConnectionManager.broadcast ok st data channel).attempted
      = (if channel = "*" then st.connections.map Prod.fst
         else ConnectionManager.subscribersOf st channel)
    ∧ ∀ ws, channel ≠ "*" → ws ∉ ConnectionManager.subscribersOf st channel →
        ws ∉ (ConnectionManager.broadcast ok st data channel).attempted := by
  have h1 : (ConnectionManager.broadcast ok st data channel).attempted
      = (if channel = "*" then st.connections.map Prod.fst
         else ConnectionManager.subscribersOf st channel) := by
    by_cases hch : channel = "*" <;>
      simp [ConnectionManager.broadcast, hch, sendAll_attempted,
        broadcastUsers_attempted, ConnectionManager.subscribersOf]
  refine ⟨h1, fun ws hch hmem => ?_⟩
  rw [h1, if_neg hch]
  exact hmem

/-- Concrete instances of C8: with connection 1 subscribed to
`"messages"` and connection 2 only to `"other"`, a `"messages"` broadcast
targets exactly connection 1 (connection 2 receives nothing) and a `"*"`
broadcast targets both. -/
theorem broadcast_targets_witness :
    (ConnectionManager.broadcast (fun _ => true)
        ⟨[(1, ⟨"ws_user_1", true, 0⟩), (2, ⟨"ws_user_2", true, 0⟩)],
         [("ws_user_1", [("messages", [1])]), ("ws_user_2", [("other", [2])])], []⟩
        (.messageFrame "messages") "messages").attempted = [1]
    ∧ 2 ∉ (ConnectionManager.broadcast (fun _ => true)
        ⟨[(1, ⟨"ws_user_1", true, 0⟩), (2, ⟨"ws_user_2", true, 0⟩)],
         [("ws_user_1", [("messages", [1])]), ("ws_user_2", [("other", [2])])], []⟩
        (.messageFrame "messages") "messages").attempted
    ∧ (ConnectionManager.broadcast (fun _ => true)
        ⟨[(1, ⟨"ws_user_1", true, 0⟩), (2, ⟨"ws_user_2", true, 0⟩)],
         [("ws_user_1", [("messages", [1])]), ("ws_user_2", [("other", [2])])], []⟩
        (.messageFrame "all") "*").attempted = [1, 2] := by
  refine ⟨?_, ?_, ?_⟩
  · exact (broadcast_targets (fun _ => true)
      ⟨[(1, ⟨"ws_user_1", true, 0⟩), (2, ⟨"ws_user_2", true, 0⟩)],
       [("ws_user_1", [("messages", [1])]), ("ws_user_2", [("other", [2])])], []⟩
      (.messageFrame "messages") "messages").1.trans (by decide)
  · exact (broadcast_targets (fun _ => true)
      ⟨[(1, ⟨"ws_user_1", true, 0⟩), (2, ⟨"ws_user_2", true, 0⟩)],
       [("ws_user_1", [("messages", [1])]), ("ws_user_2", [("other", [2])])], []⟩
      (.messageFrame "messages") "messages").2 2 (by decide) (by decide)
  · exact (broadcast_targets (fun _ => true)
      ⟨[(1, ⟨"ws_user_1", true, 0⟩), (2, ⟨"ws_user_2", true, 0⟩)],
       [("ws_user_1", [("messages", [1])]), ("ws_user_2", [("other", [2])])], []⟩
      (.messageFrame "all") "*").1.trans (by decide)

/-! ## Claim C1: broadcast failure handling and the returned count. -/

/-- C1 at a failing input: connection 1's transport fails and connection
2's works, both subscribed to `"messages"`. The failure is absorbed
(broadcast completes), connection 1 is force-disconnected, delivery
continues to connection 2 — but the returned `sent_count` is 2 even
though only ONE delivery succeeded, because `send_json` swallows the
exception and `broadcast` increments its counter unconditionally,
contradicting its own docstring (count of successful deliveries). -/
theorem broadcast_counts_failed_delivery :
    (ConnectionManager.broadcast (fun ws => ws == 2)
        ⟨[(1, ⟨"ws_user_1", true, 0⟩), (2, ⟨"ws_user_2", true, 0⟩)],
         [("ws_user_1", [("messages", [1])]), ("ws_user_2", [("messages", [2])])], []⟩
        (.messageFrame "messages") "messages").sent_count = 2
    ∧ (ConnectionManager.broadcast (fun ws => ws == 2)
        ⟨[(1, ⟨"ws_user_1", true, 0⟩), (2, ⟨"ws_user_2", true, 0⟩)],
         [("ws_user_1", [("messages", [1])]), ("ws_user_2", [("messages", [2])])], []⟩
        (.messageFrame "messages") "messages").delivered
      = [(2, .messageFrame "messages")]
    ∧ (ConnectionManager.broadcast (fun ws => ws == 2)
        ⟨[(1, ⟨"ws_user_1", true, 0⟩), (2, ⟨"ws_user_2", true, 0⟩)],
         [("ws_user_1", [("messages", [1])]), ("ws_user_2", [("messages", [2])])], []⟩
        (.messageFrame "messages") "messages").state.connections
      = [(2, ⟨"ws_user_2", true, 0⟩)] := by
  decide

/-! ## Claims C6 and C7: authentication gating. -/

/-- Lookup through a `last_seen` refresh. -/
lemma alookup_update_last_seen (l : List (Nat × ConnInfo)) (ws : Nat) (now : Int) (a : Nat) :
    alookup (l.map (fun p =>
        (p.1, if p.1 = ws then { p.2 with last_seen := now } else p.2))) a
      = (alookup l a).map (fun i => if a = ws then { i with last_seen := now } else i) := by
  induction l with
  | nil => rfl
  | cons q rest ih =>
    by_cases hq : q.1 = a
    · subst hq; simp [alookup]
    · simp [alookup, hq, ih]

/-- Lookup through an authentication update. -/
lemma alookup_set_authenticated (l : List (Nat × ConnInfo)) (ws : Nat) (b : Bool) (a : Nat) :
    alookup (l.map (fun p =>
        (p.1, if p.1 = ws then { p.2 with authenticated := b } else p.2))) a
      = (alookup l a).map (fun i => if a = ws then { i with authenticated := b } else i) := by
  induction l with
  | nil => rfl
  | cons q rest ih =>
    by_cases hq : q.1 = a
    · subst hq; simp [alookup]
    · simp [alookup, hq, ih]

/-- Refreshing `last_seen` does not change authentication status. -/
lemma is_authenticated_update_last_seen (st : ManagerState) (ws : Nat) (now : Int) (a : Nat) :
    ConnectionManager.is_authenticated (ConnectionManager.update_last_seen st ws now) a
      = ConnectionManager.is_authenticated st a := by
  unfold ConnectionManager.is_authenticated ConnectionManager.update_last_seen
  rw [show ({ st with connections := st.connections.map (fun p =>
        (p.1, if p.1 = ws then { p.2 with last_seen := now } else p.2)) } :
        ManagerState).connections
      = st.connections.map (fun p =>
        (p.1, if p.1 = ws then { p.2 with last_seen := now } else p.2)) from rfl,
    alookup_update_last_seen]
  cases alookup st.connections a with
  | none => rfl
  | some v =>
    by_cases ha : a = ws <;> simp [ha]

/-- Dropping users can only shrink a channel's subscriber set. -/
lemma collectChannel_filter_subset (c : String)
    (pred : String × List (String × List Nat) → Bool)
    (l : List (String × List (String × List Nat))) :
    ∀ x ∈ ConnectionManager.collectChannel c (l.filter pred),
      x ∈ ConnectionManager.collectChannel c l := by
  induction l with
  | nil => intro x hx; simpa using hx
  | cons q rest ih =>
    intro x hx
    obtain ⟨u, chans⟩ := q
    rw [List.filter_cons] at hx
    by_cases hq : pred (u, chans)
    · rw [if_pos hq] at hx
      rcases List.mem_append.mp hx with hx | hx
      · exact List.mem_append.mpr (Or.inl hx)
      · exact List.mem_append.mpr (Or.inr (ih x hx))
    · rw [if_neg hq] at hx
      exact List.mem_append.mpr (Or.inr (ih x hx))

/-- `disconnect` never adds a websocket to any subscriber set. -/
lemma subscribersOf_disconnect_subset (st : ManagerState) (ws : Nat) (c : String) :
    ∀ x ∈ ConnectionManager.subscribersOf (ConnectionManager.disconnect st ws) c,
      x ∈ ConnectionManager.subscribersOf st c := by
  intro x hx
  unfold ConnectionManager.disconnect at hx
  cases h : alookup st.connections ws with
  | none => rw [h] at hx; exact hx
  | some info =>
    rw [h] at hx
    exact collectChannel_filter_subset c _ st.subscriptions x hx

/-- C6: a `subscribe` frame from a connection that is not authenticated
makes the endpoint close the socket with policy code 4008 and disconnect
it; `ConnectionManager.subscribe` is never run, so no websocket is ever
added to any channel's subscriber set on this path. -/
theorem unauthenticated_subscribe_rejected (ok : Nat → Bool) (st : ManagerState)
    (ws : Nat) (now : Int) (channels : List String)
    (h : ConnectionManager.is_authenticated st ws = false) :
    ConnectionManager.websocket_events_step ok st ws now (.subscribe channels)
      = (ConnectionManager.disconnect (ConnectionManager.update_last_seen st ws now) ws,
         .closed 4008, [])
    ∧ ∀ c ws₂, ws₂ ∉ ConnectionManager.subscribersOf st c →
        ws₂ ∉ ConnectionManager.subscribersOf
          (ConnectionManager.websocket_events_step ok st ws now (.subscribe channels)).1 c := by
  have hau : ConnectionManager.is_authenticated
      (ConnectionManager.update_last_seen st ws now) ws = false := by
    rw [is_authenticated_update_last_seen]; exact h
  have hstep : ConnectionManager.websocket_events_step ok st ws now (.subscribe channels)
      = (ConnectionManager.disconnect (ConnectionManager.update_last_seen st ws now) ws,
         .closed 4008, []) := by
    simp [ConnectionManager.websocket_events_step, hau]
  refine ⟨hstep, fun c ws₂ hmem hmem2 => ?_⟩
  rw [hstep] at hmem2
  exact hmem (subscribersOf_disconnect_subset
    (ConnectionManager.update_last_seen st ws now) ws c ws₂ hmem2)

/-- Concrete instance of C6: an unauthenticated connection sending
`subscribe ["messages"]` is closed with 4008, disconnected, and never
appears in the `"messages"` subscriber set. -/
theorem unauthenticated_subscribe_rejected_witness :
    ConnectionManager.websocket_events_step (fun _ => true)
        ⟨[(1, ⟨"ws_user_1", false, 0⟩)], [("ws_user_1", [])], ["tok"]⟩ 1 5
        (.subscribe ["messages"])
      = (⟨[], [], ["tok"]⟩, .closed 4008, [])
    ∧ (1 : Nat) ∉ ConnectionManager.subscribersOf
        (ConnectionManager.websocket_events_step (fun _ => true)
          ⟨[(1, ⟨"ws_user_1", false, 0⟩)], [("ws_user_1", [])], ["tok"]⟩ 1 5
          (.subscribe ["messages"])).1 "messages" := by
  have h := unauthenticated_subscribe_rejected (fun _ => true)
    ⟨[(1, ⟨"ws_user_1", false, 0⟩)], [("ws_user_1", [])], ["tok"]⟩ 1 5 ["messages"]
    (by decide)
  exact ⟨h.1.trans (by decide), h.2 "messages" 1 (by decide)⟩

/-- C7: an `auth` frame whose token is not in the valid set makes the hub
send an `error` frame with code 401, return `False`, and leave the whole
hub state untouched (no close, authentication state unchanged); a valid
token marks the connection authenticated and sends `auth_ack`. -/
theorem handle_auth_spec (ok : Nat → Bool) (st : ManagerState) (ws : Nat)
    (token : String) (hok : ok ws = true) :
    (ConnectionManager.validate_token st token = false →
      ConnectionManager.handle_auth ok st ws token
        = (st, false, [(ws, .errorFrame "Invalid token" 401)]))
    ∧ (ConnectionManager.validate_token st token = true →
      ConnectionManager.handle_auth ok st ws token
        = (ConnectionManager.set_authenticated st ws true, true,
           [(ws, .auth_ack (ConnectionManager.get_connection_id
              (ConnectionManager.set_authenticated st ws true) ws))]))
    ∧ (ConnectionManager.validate_token st token = true →
       (alookup st.connections ws).isSome = true →
      ConnectionManager.is_authenticated
        (ConnectionManager.handle_auth ok st ws token).1 ws = true) := by
  refine ⟨fun h => ?_, fun h => ?_, fun h hsome => ?_⟩
  · simp [ConnectionManager.handle_auth, ConnectionManager.send_json, h, hok]
  · simp [ConnectionManager.handle_auth, ConnectionManager.send_json, h, hok]
  · have hstate : (ConnectionManager.handle_auth ok st ws token).1
        = ConnectionManager.set_authenticated st ws true := by
      simp [ConnectionManager.handle_auth, ConnectionManager.send_json, h, hok]
    rw [hstate]
    unfold ConnectionManager.is_authenticated ConnectionManager.set_authenticated
    rw [show ({ st with connections := st.connections.map (fun p =>
          (p.1, if p.1 = ws then { p.2 with authenticated := true } else p.2)) } :
          ManagerState).connections
        = st.connections.map (fun p =>
          (p.1, if p.1 = ws then { p.2 with authenticated := true } else p.2)) from rfl,
      alookup_set_authenticated]
    obtain ⟨v, hv⟩ := Option.isSome_iff_exists.mp hsome
    rw [hv]
    simp

/-- Concrete instance of C7: with valid tokens `["good"]`, token `"bad"`
draws the 401 error frame and leaves the state exactly as it was, while
token `"good"` authenticates the connection. -/
theorem handle_auth_spec_witness :
    ConnectionManager.handle_auth (fun _ => true)
        ⟨[(1, ⟨"ws_user_1", false, 0⟩)], [("ws_user_1", [])], ["good"]⟩ 1 "bad"
      = (⟨[(1, ⟨"ws_user_1", false, 0⟩)], [("ws_user_1", [])], ["good"]⟩, false,
         [(1, .errorFrame "Invalid token" 401)])
    ∧ ConnectionManager.is_authenticated
        (ConnectionManager.handle_auth (fun _ => true)
          ⟨[(1, ⟨"ws_user_1", false, 0⟩)], [("ws_user_1", [])], ["good"]⟩ 1 "good").1 1
      = true :=
  ⟨(handle_auth_spec (fun _ => true)
      ⟨[(1, ⟨"ws_user_1", false, 0⟩)], [("ws_user_1", [])], ["good"]⟩ 1 "bad" rfl).1
      (by decide),
   (handle_auth_spec (fun _ => true)
      ⟨[(1, ⟨"ws_user_1", false, 0⟩)], [("ws_user_1", [])], ["good"]⟩ 1 "good" rfl).2.2
      (by decide) (by decide)⟩
